import Mathlib

/-!
Verification of the measurement construction and validation core of the
temperature_logger repository.

The embedded code comes from two near-duplicate Python modules:
`src/client_python/loggers/base_logger.py` (which defines
`validate_measurement` and a `GCPLogger._get_proto` that validates the
Measurement before returning it) and `src/loggers/base_logger.py` (an older
variant whose `GCPLogger._get_proto` returns the Measurement without any
validation).

Modelling conventions:
- Python floats are modelled as exact rationals (`ℚ`).  The code's `/` is
  true (non-truncating) division; IEEE rounding is out of scope.
- Python exceptions are modelled with `Except`: a raised exception is an
  `Except.error` carrying a `PyError` value.
- The regular expressions that `re.match` receives are modelled with
  Mathlib's `RegularExpression Char`.  `re.match(pattern, s)` succeeds iff
  the pattern matches some leading segment of `s` (it is anchored at the
  start only); that is the `reMatch` function below.
- The protobuf schema (`measurement_pb2`, generated from a `.proto` file
  that is not part of the source tree) is modelled from the spec as a table
  assigning an optional regex rule to each of the three Measurement fields,
  and `ListFields` reproduces protobuf presence semantics: scalar fields
  equal to their default value and unset message fields are not listed.
-/

namespace TempLogger

/-- Decidable equality of `Except` results, used to evaluate the embedded
functions on concrete inputs. -/
instance exceptDecEq {ε α : Type} [DecidableEq ε] [DecidableEq α] :
    DecidableEq (Except ε α) := fun x y =>
  match x, y with
  | .ok a, .ok b =>
    if h : a = b then .isTrue (by rw [h]) else
      .isFalse (fun hc => h (Except.ok.inj hc))
  | .error a, .error b =>
    if h : a = b then .isTrue (by rw [h]) else
      .isFalse (fun hc => h (Except.error.inj hc))
  | .ok _, .error _ => .isFalse (fun hc => Except.noConfusion hc)
  | .error _, .ok _ => .isFalse (fun hc => Except.noConfusion hc)

/-- Python exceptions that the embedded code can raise.  `invalidProtoError`
carries the formatted message from `validate_measurement`;
`zeroDivisionError` models Python's division by zero; `invalidInputError` is
the error class that the spec prescribes for an empty readings list (the
source never raises it; it is included so that statements can compare the
actual error against it). -/
inductive PyError where
  | invalidProtoError (msg : String)
  | zeroDivisionError
  | invalidInputError
  deriving DecidableEq, Repr

/-- Embedding of `google.protobuf.Timestamp`: seconds since the epoch plus a
nanosecond part. -/
structure Timestamp where
  seconds : Int
  nanos : Int
  deriving DecidableEq, Repr

/-- Embedding of the `datetime.datetime` argument of `_get_proto`, reduced to
the data `Timestamp.FromDatetime` consumes: whole seconds since the epoch and
the microsecond field. -/
structure Datetime where
  epochSeconds : Int
  microsecond : Nat
  deriving DecidableEq, Repr

/-- Embedding of `Timestamp.FromDatetime`: seconds are taken as-is and the
microseconds become nanoseconds. -/
def Timestamp.FromDatetime (dt : Datetime) : Timestamp :=
  ⟨dt.epochSeconds, (dt.microsecond : Int) * 1000⟩

/-- Embedding of the `measurement_pb2.Measurement` protobuf message: a device
identifier, an optional (message-typed, hence explicit-presence) timestamp and
a temperature.  Field declaration order is `device_id`, `timestamp`, `temp`. -/
structure Measurement where
  device_id : String
  timestamp : Option Timestamp
  temp : ℚ
  deriving DecidableEq, Repr

/-- Embedding of a compiled regex rule attached to a field via the custom
`regex` protobuf field option.  `pattern` is the option's source text (the
string interpolated into error messages); `compiled` is the regular
expression it denotes.  Compilation of pattern text is not modelled, so the
two are carried together. -/
structure Rule where
  pattern : String
  compiled : RegularExpression Char

/-- Modelled from the spec: the static schema of `measurement_pb2`, which is
generated code absent from the source tree.  It assigns to each Measurement
field the regex rule carried by its field options, if any. -/
structure Schema where
  device_id_rule : Option Rule
  timestamp_rule : Option Rule
  temp_rule : Option Rule

/-- Embedding of Python's `re.match(r, s)` viewed as a Boolean test: it
succeeds iff `r` matches some leading segment of `s`.  The search is anchored
at the start of the string but does not have to consume all of it. -/
def reMatch (r : RegularExpression Char) (s : String) : Bool :=
  (List.range (s.length + 1)).any fun n => r.rmatch (s.toList.take n)

/-- Declarative counterpart of `reMatch`, written from the spec's words: the
value, as a string, has a leading segment that is in the language of the
pattern; characters after that segment are ignored. -/
def MatchesLead (r : RegularExpression Char) (s : String) : Prop :=
  ∃ p, p <+: s.toList ∧ p ∈ r.matches'

/-- Modelled from the spec: canonical string rendering of a timestamp field
value, used when a (hypothetical) rule is attached to the `timestamp` field;
the generated protobuf code that fixes the real rendering is not in the
source tree. -/
def renderTimestamp (t : Timestamp) : String :=
  toString t.seconds ++ "." ++ toString t.nanos

/-- Modelled from the spec: canonical string rendering of the `temp` field
value. -/
def renderTemp (q : ℚ) : String :=
  toString q.num ++ "/" ++ toString q.den

/-- One entry of `Measurement.ListFields`: the field's name, its value
rendered as a string, and the rule its options carry, if any. -/
abbrev FieldEntry : Type := String × String × Option Rule

/-- Embedding of `measurement.ListFields()` combined with the per-field
option lookup done in the loop of `validate_measurement`: the fields that are
present (protobuf semantics: scalar fields differing from their default,
message fields that are set), in field declaration order, each paired with
its rendered value and its optional regex rule from the schema. -/
def Measurement.ListFields (sch : Schema) (m : Measurement) : List FieldEntry :=
  (if m.device_id = "" then [] else [(("device_id", m.device_id, sch.device_id_rule) : FieldEntry)]) ++
  (match m.timestamp with
    | none => []
    | some t => [(("timestamp", renderTimestamp t, sch.timestamp_rule) : FieldEntry)]) ++
  (if m.temp = 0 then [] else [(("temp", renderTemp m.temp, sch.temp_rule) : FieldEntry)])

/-- Embedding of the message construction
`'Field failed regex validation. Field: "..." Value: "..." Regex: "..."'`
performed by `validate_measurement` when a field fails its regex. -/
def protoErrorMsg (name value pat : String) : String :=
  "Field failed regex validation. Field: \"" ++ name ++ "\" Value: \"" ++ value ++
    "\" Regex: \"" ++ pat ++ "\""

/-- Body of the loop of `validate_measurement`: check each listed field in
order; on the first field whose regex option is present and whose value fails
`re.match`, raise `InvalidProtoError` with the formatted message; if the loop
finishes, return nothing. -/
def checkFields : List FieldEntry → Except PyError Unit
  | [] => .ok ()
  | (name, value, rule) :: rest =>
    match rule with
    | none => checkFields rest
    | some r =>
      if reMatch r.compiled value then checkFields rest
      else .error (.invalidProtoError (protoErrorMsg name value r.pattern))

/-- Embedding of `validate_measurement` from
`src/client_python/loggers/base_logger.py`, with the schema (the regex field
options of `measurement_pb2`) passed explicitly. -/
def validate_measurement (sch : Schema) (m : Measurement) : Except PyError Unit :=
  checkFields (m.ListFields sch)

/-- Embedding of Python's built-in `sum` on a list of floats: left fold of
addition starting from `0`. -/
def pySum (l : List ℚ) : ℚ :=
  l.foldl (· + ·) 0

/-- Embedding of Python's `/` on a float numerator and an integer (list
length) denominator: raises `ZeroDivisionError` when the denominator is zero,
otherwise true division. -/
def pyDiv (a : ℚ) (n : Nat) : Except PyError ℚ :=
  if n = 0 then .error .zeroDivisionError else .ok (a / n)

/-- Embedding of the `GCPLogger` class state set by `__init__`: the Google
Cloud project ID and the device ID. -/
structure GCPLogger where
  project_id : String
  device_id : String
  deriving DecidableEq, Repr

namespace ClientPython

/-- Embedding of `GCPLogger._get_proto` from
`src/client_python/loggers/base_logger.py`: convert the timestamp, take the
mean of the values (`sum(values) / len(values)`), build the Measurement with
the logger's device ID, validate it, and return it.  A validation failure or
a division by zero propagates as the raised exception. -/
def GCPLogger.get_proto (sch : Schema) (lg : GCPLogger) (timestamp : Datetime)
    (values : List ℚ) : Except PyError Measurement := do
  let timestamp_proto := Timestamp.FromDatetime timestamp
  let mean_temp ← pyDiv (pySum values) values.length
  let proto : Measurement :=
    { device_id := lg.device_id, timestamp := some timestamp_proto, temp := mean_temp }
  let _ ← validate_measurement sch proto
  return proto

end ClientPython

namespace LoggersDir

/-- Embedding of `GCPLogger._get_proto` from `src/loggers/base_logger.py`
(the older near-duplicate): identical construction
(`float(sum(values)) / len(values)` is the same exact division in this
model), but the Measurement is returned without any validation. -/
def GCPLogger.get_proto (lg : GCPLogger) (timestamp : Datetime)
    (values : List ℚ) : Except PyError Measurement := do
  let timestamp_proto := Timestamp.FromDatetime timestamp
  let mean_temp ← pyDiv (pySum values) values.length
  return { device_id := lg.device_id, timestamp := some timestamp_proto, temp := mean_temp }

end LoggersDir

/-- The Measurement value constructed by the `proto = measurement_pb2.Measurement(...)`
line of `_get_proto`, before any validation: the logger's device ID, the
converted timestamp, and the mean of the values. -/
def builtProto (lg : GCPLogger) (timestamp : Datetime) (values : List ℚ) : Measurement :=
  { device_id := lg.device_id, timestamp := some (Timestamp.FromDatetime timestamp),
    temp := pySum values / (values.length : ℚ) }

/-- Boolean test of whether one listed field violates its rule: false when the
field carries no rule or its value passes `re.match`, true when the regex
match fails. -/
def entryFails : FieldEntry → Bool
  | (_, _, none) => false
  | (_, value, some r) => ! reMatch r.compiled value

/-- Containment of `sub` in `s` as a contiguous substring, used to state what
the validation error message carries. -/
def containsSub (s sub : String) : Prop :=
  ∃ a b, s = a ++ sub ++ b

/-- Regular expression matching exactly the characters of `s` in order. -/
def litRegex (s : String) : RegularExpression Char :=
  (s.toList.map RegularExpression.char).foldr (· * ·) 1

/-- Regular expression matching exactly one decimal digit, the denotation of
the character class `[0-9]`. -/
def digit : RegularExpression Char :=
  ((List.range 10).map (fun n => RegularExpression.char (Char.ofNat (48 + n)))).foldr (· + ·) 0

/-- Example rule of the spec: the `device_id` field must match `device-[0-9]+`
(anchoring at the start is implicit in `re.match`). -/
def deviceRule : Rule :=
  ⟨"device-[0-9]+", litRegex "device-" * (digit * RegularExpression.star digit)⟩

/-- Small rule used to put a second failing field in a schema: the value must
begin with the letter `x`. -/
def xRule : Rule :=
  ⟨"x", RegularExpression.char 'x'⟩

/-- Schema carrying the spec's example rule on `device_id` only. -/
def exSchema : Schema := ⟨some deviceRule, none, none⟩

/-- Schema with rules on both `device_id` and `timestamp`, for exercising the
short-circuit behaviour. -/
def twoRuleSchema : Schema := ⟨some deviceRule, some xRule, none⟩

/-- Schema with no regex options at all. -/
def emptySchema : Schema := ⟨none, none, none⟩

/-- Example logger with a device ID that passes the example rule. -/
def wLogger : GCPLogger := ⟨"example-project", "device-42"⟩

/-- Example logger with a device ID that fails the example rule. -/
def badLogger : GCPLogger := ⟨"example-project", "sensor-42"⟩

/-- Example datetime argument. -/
def wDt : Datetime := ⟨1000, 5⟩

/-- Example Measurement with only the `device_id` field present. -/
def wMeas4 : Measurement := ⟨"device-42", none, 0⟩

/-- Example Measurement whose `device_id` and `timestamp` fields are both
present, with a device ID failing the example rule. -/
def wMeas6 : Measurement := ⟨"sensor-42", some ⟨0, 0⟩, 0⟩

/-- Example Measurement with only the `device_id` field present, failing the
example rule. -/
def wMeas5 : Measurement := ⟨"sensor-42", none, 0⟩

/-- The Measurement built by `_get_proto` from `wLogger`, `wDt` and the
readings 18 and 22. -/
def wMeasMean : Measurement := ⟨"device-42", some ⟨1000, 5000⟩, 20⟩

/-- The Measurement built by `_get_proto` from `wLogger`, `wDt` and the single
reading 20. -/
def wMeasSingle : Measurement := ⟨"device-42", some ⟨1000, 5000⟩, 20⟩

section Theorems

/-- Folding addition from an accumulator adds the list sum to it. -/
theorem foldl_add_eq_add_sum (l : List ℚ) : ∀ a : ℚ, l.foldl (· + ·) a = a + l.sum := by
  induction l with
  | nil => intro a; simp
  | cons x xs ih => intro a; simp [List.foldl_cons, ih, add_assoc]

/-- Python's left-fold `sum` agrees with the list sum. -/
theorem pySum_eq_sum (l : List ℚ) : pySum l = l.sum := by
  simp [pySum, foldl_add_eq_add_sum]

/-- Correctness of the `re.match` embedding: it succeeds exactly when some
leading segment of the string is in the language of the pattern. -/
theorem reMatch_eq_true_iff (r : RegularExpression Char) (s : String) :
    reMatch r s = true ↔ MatchesLead r s := by
  unfold reMatch MatchesLead
  rw [List.any_eq_true]
  constructor
  · rintro ⟨n, _, hmatch⟩
    exact ⟨s.toList.take n, List.take_prefix n s.toList,
      (RegularExpression.rmatch_iff_matches' _ _).mp hmatch⟩
  · rintro ⟨p, hp, hmem⟩
    refine ⟨p.length, ?_, ?_⟩
    · rw [List.mem_range]
      exact Nat.lt_succ_of_le hp.length_le
    · have hpt : p = s.toList.take p.length := List.prefix_iff_eq_take.mp hp
      rw [← hpt]
      exact (RegularExpression.rmatch_iff_matches' _ _).mpr hmem

/-- A field entry passes exactly when every rule it carries prefix-matches its
rendered value. -/
theorem entryFails_false_iff (e : FieldEntry) :
    entryFails e = false ↔ ∀ r, e.2.2 = some r → MatchesLead r.compiled e.2.1 := by
  obtain ⟨name, value, rule⟩ := e
  cases rule with
  | none => simp [entryFails]
  | some r => simp [entryFails, ← reMatch_eq_true_iff]

/-- The validation loop returns nothing exactly when no listed entry fails. -/
theorem checkFields_ok_iff (l : List FieldEntry) :
    checkFields l = .ok () ↔ ∀ e ∈ l, entryFails e = false := by
  induction l with
  | nil => simp [checkFields]
  | cons e rest ih =>
    obtain ⟨name, value, rule⟩ := e
    cases rule with
    | none => simp [checkFields, entryFails, ih]
    | some r =>
      by_cases h : reMatch r.compiled value
      · simp [checkFields, h, entryFails, ih]
      · simp [checkFields, h, entryFails, ih]

/-- C4: for every Measurement field carrying a regex rule and every field
value, `validate_measurement` accepts iff each listed field's value, rendered
as a string, matches its rule's regex from the start of the string; trailing
characters beyond the matched leading segment do not cause failure (the
`MatchesLead` right-hand side only constrains a leading segment). -/
theorem validate_ok_iff_lead_match (sch : Schema) (m : Measurement) :
    validate_measurement sch m = .ok () ↔
      ∀ e ∈ m.ListFields sch, ∀ r, e.2.2 = some r → MatchesLead r.compiled e.2.1 := by
  rw [validate_measurement, checkFields_ok_iff]
  exact forall₂_congr fun e _ => by rw [entryFails_false_iff]

/-- Witness for C4 at a concrete input: the example schema accepts the
Measurement whose device ID is `device-42`. -/
theorem validate_ok_iff_lead_match_witness :
    validate_measurement exSchema wMeas4 = .ok () := by
  refine (validate_ok_iff_lead_match exSchema wMeas4).mpr ?_
  intro e he r hr
  have hl : wMeas4.ListFields exSchema = [("device_id", "device-42", some deviceRule)] := rfl
  rw [hl] at he
  cases he with
  | head =>
    cases hr
    exact (reMatch_eq_true_iff deviceRule.compiled "device-42").mp (by decide)
  | tail _ h => cases h

/-- C8: when every rule that applies to a listed field passes, validation
returns successfully with no value (`Unit`): it is a gate, not a transform,
and the Measurement is not modified (the embedding of the loop never writes
to the record). -/
theorem validate_all_pass_ok (sch : Schema) (m : Measurement)
    (h : ∀ e ∈ m.ListFields sch, entryFails e = false) :
    validate_measurement sch m = .ok () :=
  (checkFields_ok_iff (m.ListFields sch)).mpr h

/-- Witness for C8 at a concrete input. -/
theorem validate_all_pass_ok_witness :
    validate_measurement exSchema wMeas4 = Except.ok () ∧ wMeas4 = wMeas4 :=
  ⟨validate_all_pass_ok exSchema wMeas4 (by decide), rfl⟩

/-- C9: validation is deterministic and idempotent: two calls of
`validate_measurement` on the same Measurement and rule set yield the same
accept/reject outcome with the same error content. -/
theorem validate_deterministic (sch : Schema) (m : Measurement)
    (r₁ r₂ : Except PyError Unit)
    (h₁ : validate_measurement sch m = r₁) (h₂ : validate_measurement sch m = r₂) :
    r₁ = r₂ :=
  h₁ ▸ h₂

/-- Witness for C9 at a concrete input. -/
theorem validate_deterministic_witness :
    Except.ok () = (Except.ok () : Except PyError Unit) :=
  validate_deterministic exSchema wMeas4 (.ok ()) (.ok ()) (by decide) (by decide)

/-- Skipping entries that all pass leaves the validation loop's result on the
remaining entries unchanged. -/
theorem checkFields_append_ok (l₁ l₂ : List FieldEntry)
    (h : ∀ e ∈ l₁, entryFails e = false) :
    checkFields (l₁ ++ l₂) = checkFields l₂ := by
  induction l₁ with
  | nil => rfl
  | cons hd rest ih =>
    obtain ⟨name, value, rule⟩ := hd
    have hhd : entryFails (name, value, rule) = false := h _ (List.mem_cons_self _ _)
    have hrest : ∀ e ∈ rest, entryFails e = false := fun e he => h e (List.mem_cons_of_mem _ he)
    cases rule with
    | none => simpa [checkFields] using ih hrest
    | some r =>
      have hm : reMatch r.compiled value = true := by simpa [entryFails] using hhd
      simpa [checkFields, hm] using ih hrest

/-- Any error produced by the validation loop comes from a listed entry whose
rule failed, and carries exactly the formatted message for that entry. -/
theorem checkFields_error_shape (l : List FieldEntry) (e : PyError)
    (h : checkFields l = .error e) :
    ∃ name value r, ((name, value, some r) : FieldEntry) ∈ l ∧
      reMatch r.compiled value = false ∧
      e = .invalidProtoError (protoErrorMsg name value r.pattern) := by
  induction l with
  | nil => simp [checkFields] at h
  | cons hd rest ih =>
    obtain ⟨name, value, rule⟩ := hd
    cases rule with
    | none =>
      rw [checkFields] at h
      obtain ⟨n, v, r, hmem, hf, he⟩ := ih h
      exact ⟨n, v, r, List.mem_cons_of_mem _ hmem, hf, he⟩
    | some r =>
      by_cases hm : reMatch r.compiled value
      · rw [checkFields, if_pos hm] at h
        obtain ⟨n, v, r', hmem, hf, he⟩ := ih h
        exact ⟨n, v, r', List.mem_cons_of_mem _ hmem, hf, he⟩
      · rw [checkFields, if_neg hm] at h
        refine ⟨name, value, r, List.mem_cons_self _ _, by simpa using hm, ?_⟩
        exact (Except.error.inj h).symm

/-- The formatted validation message contains the field name, the offending
value and the regex text as substrings. -/
theorem protoErrorMsg_contains (name value pat : String) :
    containsSub (protoErrorMsg name value pat) name ∧
    containsSub (protoErrorMsg name value pat) value ∧
    containsSub (protoErrorMsg name value pat) pat := by
  refine ⟨⟨"Field failed regex validation. Field: \"",
      "\" Value: \"" ++ value ++ "\" Regex: \"" ++ pat ++ "\"", ?_⟩,
    ⟨"Field failed regex validation. Field: \"" ++ name ++ "\" Value: \"",
      "\" Regex: \"" ++ pat ++ "\"", ?_⟩,
    ⟨"Field failed regex validation. Field: \"" ++ name ++ "\" Value: \"" ++ value ++
      "\" Regex: \"", "\"", ?_⟩⟩ <;>
  simp [protoErrorMsg, String.append_assoc]

/-- C5: whenever `validate_measurement` rejects, the raised error is an
`InvalidProtoError` whose message names the offending field, the field's
value and the text of the failing regex. -/
theorem validate_error_message_content (sch : Schema) (m : Measurement) (e : PyError)
    (h : validate_measurement sch m = .error e) :
    ∃ name value r, ((name, value, some r) : FieldEntry) ∈ m.ListFields sch ∧
      reMatch r.compiled value = false ∧
      e = .invalidProtoError (protoErrorMsg name value r.pattern) ∧
      containsSub (protoErrorMsg name value r.pattern) name ∧
      containsSub (protoErrorMsg name value r.pattern) value ∧
      containsSub (protoErrorMsg name value r.pattern) r.pattern := by
  obtain ⟨name, value, r, hmem, hf, he⟩ := checkFields_error_shape _ e h
  obtain ⟨h1, h2, h3⟩ := protoErrorMsg_contains name value r.pattern
  exact ⟨name, value, r, hmem, hf, he, h1, h2, h3⟩

/-- Witness for C5 at a concrete input: the message raised for the failing
device ID `sensor-42` contains the field name, the value and the regex. -/
theorem validate_error_message_content_witness :
    containsSub (protoErrorMsg "device_id" "sensor-42" "device-[0-9]+") "device_id" ∧
    containsSub (protoErrorMsg "device_id" "sensor-42" "device-[0-9]+") "sensor-42" ∧
    containsSub (protoErrorMsg "device_id" "sensor-42" "device-[0-9]+") "device-[0-9]+" := by
  obtain ⟨name, value, r, hmem, hf, he, h1, h2, h3⟩ :=
    validate_error_message_content exSchema wMeas5
      (.invalidProtoError (protoErrorMsg "device_id" "sensor-42" "device-[0-9]+"))
      (by decide)
  have hl : wMeas5.ListFields exSchema = [("device_id", "sensor-42", some deviceRule)] := rfl
  rw [hl] at hmem
  cases hmem with
  | head => exact ⟨h1, h2, h3⟩
  | tail _ ht => cases ht

/-- C6: validation short-circuits: when several listed fields violate their
rules, the raised error is exactly the one formatted from the first failing
entry in field iteration order; entries after it do not influence the
result. -/
theorem validate_first_failure (sch : Schema) (m : Measurement)
    (l₁ : List FieldEntry) (e₁ : FieldEntry) (l₂ : List FieldEntry)
    (hsplit : m.ListFields sch = l₁ ++ e₁ :: l₂)
    (hok : ∀ e ∈ l₁, entryFails e = false)
    (hfail : entryFails e₁ = true)
    (_hlater : ∃ e ∈ l₂, entryFails e = true) :
    ∃ r, e₁.2.2 = some r ∧
      validate_measurement sch m =
        .error (.invalidProtoError (protoErrorMsg e₁.1 e₁.2.1 r.pattern)) := by
  obtain ⟨name, value, rule⟩ := e₁
  cases rule with
  | none => simp [entryFails] at hfail
  | some r =>
    refine ⟨r, rfl, ?_⟩
    rw [validate_measurement, hsplit, checkFields_append_ok _ _ hok]
    have hm : ¬ reMatch r.compiled value = true := by
      simpa [entryFails] using hfail
    rw [checkFields, if_neg hm]

/-- Witness for C6 at a concrete input: with rules on both `device_id` and
`timestamp` and both fields failing, the error names `device_id` only. -/
theorem validate_first_failure_witness :
    validate_measurement twoRuleSchema wMeas6 =
      .error (.invalidProtoError (protoErrorMsg "device_id" "sensor-42" "device-[0-9]+")) := by
  obtain ⟨r, hr, hv⟩ :=
    validate_first_failure twoRuleSchema wMeas6 []
      ("device_id", "sensor-42", some deviceRule)
      [("timestamp", "0.0", some xRule)]
      rfl (by simp) (by decide)
      ⟨("timestamp", "0.0", some xRule), List.mem_singleton.mpr rfl, by decide⟩
  rw [Option.some.injEq] at hr
  subst hr
  exact hv

/-- Passing an empty readings list to the client_python `_get_proto` raises
`ZeroDivisionError` from `sum(values) / len(values)`. -/
theorem cp_get_proto_nil (sch : Schema) (lg : GCPLogger) (dt : Datetime) :
    ClientPython.GCPLogger.get_proto sch lg dt [] = .error .zeroDivisionError := rfl

/-- Passing an empty readings list to the legacy `_get_proto` raises
`ZeroDivisionError` as well. -/
theorem ld_get_proto_nil (lg : GCPLogger) (dt : Datetime) :
    LoggersDir.GCPLogger.get_proto lg dt [] = .error .zeroDivisionError := rfl

/-- On a non-empty readings list, the client_python `_get_proto` builds the
mean-valued Measurement and returns it through validation. -/
theorem cp_get_proto_cons (sch : Schema) (lg : GCPLogger) (dt : Datetime)
    (vs : List ℚ) (h : vs ≠ []) :
    ClientPython.GCPLogger.get_proto sch lg dt vs =
      (validate_measurement sch (builtProto lg dt vs)).bind
        (fun _ => .ok (builtProto lg dt vs)) := by
  have hn : vs.length ≠ 0 := fun hc => h (List.length_eq_zero.mp hc)
  simp only [ClientPython.GCPLogger.get_proto, pyDiv, if_neg hn, builtProto]
  rfl

/-- On a non-empty readings list, the legacy `_get_proto` returns the
mean-valued Measurement without validation. -/
theorem ld_get_proto_cons (lg : GCPLogger) (dt : Datetime)
    (vs : List ℚ) (h : vs ≠ []) :
    LoggersDir.GCPLogger.get_proto lg dt vs = .ok (builtProto lg dt vs) := by
  have hn : vs.length ≠ 0 := fun hc => h (List.length_eq_zero.mp hc)
  simp only [LoggersDir.GCPLogger.get_proto, pyDiv, if_neg hn, builtProto]
  rfl

/-- C1: for every readings list of length greater than one and every
timestamp, any Measurement returned by `_get_proto` (either variant) has its
`temp` field equal to the arithmetic mean of the list, the sum divided by the
length with exact (non-truncating) division. -/
theorem get_proto_temp_is_mean (sch : Schema) (lg : GCPLogger) (dt : Datetime)
    (values : List ℚ) (h : 1 < values.length) :
    (∀ m, ClientPython.GCPLogger.get_proto sch lg dt values = .ok m →
        m.temp = values.sum / (values.length : ℚ)) ∧
    (∀ m, LoggersDir.GCPLogger.get_proto lg dt values = .ok m →
        m.temp = values.sum / (values.length : ℚ)) := by
  have hne : values ≠ [] := by
    intro hc
    rw [hc] at h
    simp at h
  constructor
  · intro m hm
    rw [cp_get_proto_cons sch lg dt values hne] at hm
    cases hval : validate_measurement sch (builtProto lg dt values) with
    | ok u =>
      rw [hval] at hm
      have hbm : builtProto lg dt values = m := by
        simpa [Except.bind] using hm
      rw [← hbm]
      simp [builtProto, pySum_eq_sum]
    | error e =>
      rw [hval] at hm
      simp [Except.bind] at hm
  · intro m hm
    rw [ld_get_proto_cons lg dt values hne] at hm
    have hbm : builtProto lg dt values = m := by simpa using hm
    rw [← hbm]
    simp [builtProto, pySum_eq_sum]

unseal Rat.add Rat.mul Rat.inv

/-- Witness for C1 at the spec's Example 2: readings 18 and 22 give a
Measurement with `temp` 20. -/
theorem get_proto_temp_is_mean_witness :
    ClientPython.GCPLogger.get_proto emptySchema wLogger wDt [18, 22] = .ok wMeasMean ∧
    wMeasMean.temp = ([18, 22] : List ℚ).sum / ((([18, 22] : List ℚ).length : ℕ) : ℚ) :=
  ⟨by decide,
    (get_proto_temp_is_mean emptySchema wLogger wDt [18, 22] (by decide)).1
      wMeasMean (by decide)⟩

/-- C2: for every single-element readings list and every timestamp, any
Measurement returned by `_get_proto` (either variant) has its `temp` field
equal to that single reading exactly. -/
theorem get_proto_temp_single (sch : Schema) (lg : GCPLogger) (dt : Datetime) (v : ℚ) :
    (∀ m, ClientPython.GCPLogger.get_proto sch lg dt [v] = .ok m → m.temp = v) ∧
    (∀ m, LoggersDir.GCPLogger.get_proto lg dt [v] = .ok m → m.temp = v) := by
  have hne : ([v] : List ℚ) ≠ [] := List.cons_ne_nil v []
  have htemp : (builtProto lg dt [v]).temp = v := by
    simp [builtProto, pySum]
  constructor
  · intro m hm
    rw [cp_get_proto_cons sch lg dt [v] hne] at hm
    cases hval : validate_measurement sch (builtProto lg dt [v]) with
    | ok u =>
      rw [hval] at hm
      have hbm : builtProto lg dt [v] = m := by simpa [Except.bind] using hm
      rw [← hbm]
      exact htemp
    | error e =>
      rw [hval] at hm
      simp [Except.bind] at hm
  · intro m hm
    rw [ld_get_proto_cons lg dt [v] hne] at hm
    have hbm : builtProto lg dt [v] = m := by simpa using hm
    rw [← hbm]
    exact htemp

/-- Witness for C2 at the spec's Example 1: the single reading 20 gives a
Measurement with `temp` 20. -/
theorem get_proto_temp_single_witness :
    ClientPython.GCPLogger.get_proto emptySchema wLogger wDt [20] = .ok wMeasSingle ∧
    wMeasSingle.temp = 20 :=
  ⟨by decide,
    (get_proto_temp_single emptySchema wLogger wDt 20).1 wMeasSingle (by decide)⟩

/-- C3 counterexample: on the empty readings list, both `_get_proto` variants
raise `ZeroDivisionError` (from `sum(values) / len(values)`), which is not the
`InvalidInputError` the claim announces. -/
theorem get_proto_empty_not_invalid_input :
    ClientPython.GCPLogger.get_proto exSchema wLogger wDt [] = .error .zeroDivisionError ∧
    LoggersDir.GCPLogger.get_proto wLogger wDt [] = .error .zeroDivisionError ∧
    PyError.zeroDivisionError ≠ PyError.invalidInputError :=
  ⟨rfl, rfl, by decide⟩

/-- C3 amended: for the empty readings list and any timestamp, the builder
fails with `ZeroDivisionError` (a division-by-zero-class error, not
`InvalidInputError`), returns no Measurement, and never reaches validation
(the division raises first). -/
theorem get_proto_empty_zero_division (sch : Schema) (lg : GCPLogger) (dt : Datetime) :
    ClientPython.GCPLogger.get_proto sch lg dt [] = .error .zeroDivisionError ∧
    LoggersDir.GCPLogger.get_proto lg dt [] = .error .zeroDivisionError :=
  ⟨cp_get_proto_nil sch lg dt, ld_get_proto_nil lg dt⟩

/-- C7 amended: every Measurement returned by the client_python `_get_proto`
has passed validation: validation is invoked on the constructed record before
returning, so a returned record always validates cleanly.  (The legacy
`loggers/` variant returns without validating; see the counterexample.) -/
theorem client_get_proto_validated (sch : Schema) (lg : GCPLogger) (dt : Datetime)
    (vs : List ℚ) (m : Measurement)
    (h : ClientPython.GCPLogger.get_proto sch lg dt vs = .ok m) :
    validate_measurement sch m = .ok () := by
  cases vs with
  | nil =>
    rw [cp_get_proto_nil] at h
    exact absurd h (by simp)
  | cons x xs =>
    rw [cp_get_proto_cons sch lg dt (x :: xs) (List.cons_ne_nil x xs)] at h
    cases hval : validate_measurement sch (builtProto lg dt (x :: xs)) with
    | ok u =>
      rw [hval] at h
      have hbm : builtProto lg dt (x :: xs) = m := by simpa [Except.bind] using h
      cases u
      rw [← hbm]
      exact hval
    | error e =>
      rw [hval] at h
      simp [Except.bind] at h

/-- Witness for C7 at a concrete input. -/
theorem client_get_proto_validated_witness :
    validate_measurement exSchema wMeasMean = .ok () :=
  client_get_proto_validated exSchema wLogger wDt [18, 22] wMeasMean (by decide)

/-- C7 counterexample: the legacy `_get_proto` from `src/loggers` hands back
a Measurement that has not passed (and would fail) validation: with device ID
`sensor-42` it returns the record even though validation rejects it. -/
theorem legacy_get_proto_unvalidated :
    LoggersDir.GCPLogger.get_proto badLogger wDt [20] =
      .ok ⟨"sensor-42", some ⟨1000, 5000⟩, 20⟩ ∧
    validate_measurement exSchema ⟨"sensor-42", some ⟨1000, 5000⟩, 20⟩ =
      .error (.invalidProtoError (protoErrorMsg "device_id" "sensor-42" "device-[0-9]+")) :=
  ⟨by decide, by decide⟩

/-- C10: the Measurement produced by `_get_proto` does not depend on the
logger's `project_id`: two loggers sharing a device ID but differing in
project ID produce identical results (device ID, timestamp and temperature
all equal) on the same timestamp and readings, in both variants. -/
theorem get_proto_project_id_independent (sch : Schema) (p₁ p₂ d : String)
    (dt : Datetime) (vs : List ℚ) :
    ClientPython.GCPLogger.get_proto sch ⟨p₁, d⟩ dt vs =
      ClientPython.GCPLogger.get_proto sch ⟨p₂, d⟩ dt vs ∧
    LoggersDir.GCPLogger.get_proto ⟨p₁, d⟩ dt vs =
      LoggersDir.GCPLogger.get_proto ⟨p₂, d⟩ dt vs :=
  ⟨rfl, rfl⟩

end Theorems

end TempLogger
